import Mathlib

/-!
# redis-request-broker: a shallow embedding of the coordination core

This file embeds the canonical revision of the `redis-request-broker`
library (the `handy-redis`-based `lib/worker.js` / `lib/client.js`, the
`lib/messages.js` codec, the prefix-aware key builder, `lib/publisher.js`
and `lib/subscriber.js`) and proves properties of the embedding.

Modelling conventions:

* JavaScript runtime values are the inductive `JsVal`.  An `Error`
  instance (`new Error(msg)` and subclasses) is the `err` constructor,
  carrying its `name`, `message` and `stack` string properties plus any
  further enumerable own properties.
* `JSON.stringify` / `JSON.parse` are ECMAScript builtins, external to
  the repository.  The codec is therefore embedded on the JSON value
  domain: each `compose...` function produces the JSON value that
  `JSON.stringify` would serialize, and each `parse...` function consumes
  the value `JSON.parse` yields.  For claims about the textual layer a
  small executable model `jsonParse` of `JSON.parse` (restricted to
  integer numerals) is provided as well.
* Destructuring `const a = obj.f` of a missing property yields
  `undefined`; this is `getField` returning `JsVal.undefined`.  The inputs of
  the parse functions on all modelled paths are parsed JSON objects.
* Backend commands (`LPOP`, `RPUSH`, `PUBLISH`, `SUBSCRIBE`, `QUIT`) are
  modelled on their happy path (no connection errors); redis lists are
  Lean lists, with `LPOP` taking the head and `RPUSH` appending.
-/

/-- A JavaScript runtime value, as far as the broker manipulates them:
the JSON universe (with integer numerals) plus `undefined` and `Error`
instances.  `err name message stack extra` models an object that passes
`instanceof Error`, with its three standard string properties and its
remaining enumerable own properties `extra`. -/
inductive JsVal : Type where
  | undefined : JsVal
  | null : JsVal
  | bool : Bool → JsVal
  | num : Int → JsVal
  | str : String → JsVal
  | arr : List JsVal → JsVal
  | obj : List (String × JsVal) → JsVal
  | err : String → String → String → List (String × JsVal) → JsVal

namespace JsVal

/-- ECMAScript ToBoolean: the falsy values are `undefined`, `null`,
`false`, `0`, and the empty string; every object (including arrays and
errors) is truthy.  (`NaN` does not arise in the integer model.) -/
def truthy : JsVal → Bool
  | undefined => false
  | null => false
  | bool b => b
  | num n => n != 0
  | str s => s != ""
  | arr _ => true
  | obj _ => true
  | err _ _ _ _ => true

/-- Property access / destructuring `v.k`: on an object, the named
field (first binding wins; parsed JSON has unique keys); `undefined`
when the field is missing or `v` is not an object. -/
def getField (v : JsVal) (k : String) : JsVal :=
  match v with
  | obj fields =>
    match fields.lookup k with
    | some x => x
    | none => undefined
  | _ => undefined

mutual

/-- The values `JSON.stringify` round-trips: plain JSON data, with no
`undefined` and no `Error` instances anywhere inside.  This is the
"serializable data" of the spec. -/
def IsJson : JsVal → Bool
  | undefined => false
  | null => true
  | bool _ => true
  | num _ => true
  | str _ => true
  | arr xs => IsJsonList xs
  | obj fs => IsJsonFields fs
  | err _ _ _ _ => false

def IsJsonList : List JsVal → Bool
  | [] => true
  | x :: xs => IsJson x && IsJsonList xs

def IsJsonFields : List (String × JsVal) → Bool
  | [] => true
  | (_, x) :: fs => IsJson x && IsJsonFields fs

end

end JsVal

open JsVal

namespace Messages

/-- messages.js:10-12 — `composeRequest(id, data)` serializes
`{ id, data }`. -/
def composeRequest (id data : JsVal) : JsVal :=
  .obj [("id", id), ("data", data)]

/-- messages.js:21-23 — `composeResponse(id, response)` serializes
`{ id, response, ok: true }`. -/
def composeResponse (id response : JsVal) : JsVal :=
  .obj [("id", id), ("response", response), ("ok", .bool true)]

/-- messages.js:31-33 — `composePubSubMessage(id, message)` serializes
`{ id, message }`. -/
def composePubSubMessage (id message : JsVal) : JsVal :=
  .obj [("id", id), ("message", message)]

/-- The external `serialize-error` npm package, modelled from the spec:
"if `err` is a structured error value, convert to
`{message, name, stack, ...enumerable}`; otherwise pass through
verbatim" (spec §4.1).  On an `Error` instance it flattens the three
standard properties and the remaining enumerable own properties into a
plain object; any other value is returned unchanged. -/
def serializeError : JsVal → JsVal
  | .err n m st extra =>
    .obj ([("name", .str n), ("message", .str m), ("stack", .str st)] ++ extra)
  | v => v

/-- messages.js:42-47 — `composeError(id, error)`: if
`error instanceof Error` it is first normalized by `serializeError`;
the wire value is `{ id, error, ok: false }`. -/
def composeError (id e : JsVal) : JsVal :=
  let e' := match e with
    | .err n m st extra => serializeError (.err n m st extra)
    | other => other
  .obj [("id", id), ("error", e'), ("ok", .bool false)]

/-- messages.js:55-58 — `parseRequest`: destructure `{ id, data }` from
the parsed message and rebuild `{ id, data }`. -/
def parseRequest (m : JsVal) : JsVal :=
  .obj [("id", m.getField "id"), ("data", m.getField "data")]

/-- messages.js:67-70 — `parsePubSubMessage`: destructure
`{ id, message }` and rebuild `{ id, message }`. -/
def parsePubSubMessage (m : JsVal) : JsVal :=
  .obj [("id", m.getField "id"), ("message", m.getField "message")]

/-- messages.js:80-85 — `parseResponse`: destructure
`{ id, response, error, ok }`; `if (!ok)` return `{ id, error, ok: false }`,
otherwise `{ id, response, ok: true }`.  The branch tests the
*truthiness* of `ok`. -/
def parseResponse (m : JsVal) : JsVal :=
  if (m.getField "ok").truthy = false then
    .obj [("id", m.getField "id"), ("error", m.getField "error"), ("ok", .bool false)]
  else
    .obj [("id", m.getField "id"), ("response", m.getField "response"), ("ok", .bool true)]

end Messages

namespace Json

/-- Skip JSON whitespace. -/
def skipWs : List Char → List Char
  | c :: cs => if c = ' ' ∨ c = '\t' ∨ c = '\n' ∨ c = '\r' then skipWs cs else c :: cs
  | [] => []

/-- Body of a JSON string after the opening quote: consume until the
closing quote, handling the single-character escapes. -/
def strAux : List Char → String → Option (String × List Char)
  | [], _ => none
  | '\x22' :: cs, acc => some (acc, cs)
  | '\\' :: c :: cs, acc =>
    if c = '\x22' then strAux cs (acc.push '\x22')
    else if c = '\\' then strAux cs (acc.push '\\')
    else if c = '/' then strAux cs (acc.push '/')
    else if c = 'n' then strAux cs (acc.push '\n')
    else if c = 't' then strAux cs (acc.push '\t')
    else if c = 'r' then strAux cs (acc.push '\r')
    else none
  | c :: cs, acc => strAux cs (acc.push c)

/-- Consume a digit run, returning its value, whether at least one digit
was seen, and the rest. -/
def digAux : List Char → Nat → Bool → Nat × Bool × List Char
  | c :: cs, acc, got =>
    if c.isDigit then digAux cs (acc * 10 + (c.toNat - 48)) true else (acc, got, c :: cs)
  | [], acc, got => (acc, got, [])

/-- Match an expected literal character sequence. -/
def expectChars : List Char → List Char → Option (List Char)
  | [], cs => some cs
  | e :: es, c :: cs => if c = e then expectChars es cs else none
  | _ :: _, [] => none

mutual

/-- Fuel-indexed recursive-descent parser for one JSON value (integer
numerals only), returning the value and the unconsumed rest. -/
def parseVal : Nat → List Char → Option (JsVal × List Char)
  | 0, _ => none
  | fuel + 1, cs =>
    match skipWs cs with
    | [] => none
    | c :: rest =>
      if c = '\x22' then
        match strAux rest "" with
        | some (s, r) => some (.str s, r)
        | none => none
      else if c = '\x7b' then
        match skipWs rest with
        | '\x7d' :: r => some (.obj [], r)
        | r => match parseFields fuel r with
          | some (fs, r2) => some (.obj fs, r2)
          | none => none
      else if c = '[' then
        match skipWs rest with
        | ']' :: r => some (.arr [], r)
        | r => match parseElems fuel r with
          | some (vs, r2) => some (.arr vs, r2)
          | none => none
      else if c = 't' then
        match expectChars ['r', 'u', 'e'] rest with
        | some r => some (.bool true, r)
        | none => none
      else if c = 'f' then
        match expectChars ['a', 'l', 's', 'e'] rest with
        | some r => some (.bool false, r)
        | none => none
      else if c = 'n' then
        match expectChars ['u', 'l', 'l'] rest with
        | some r => some (.null, r)
        | none => none
      else if c = '-' then
        match digAux rest 0 false with
        | (n, true, r) => some (.num (-(n : Int)), r)
        | (_, false, _) => none
      else if c.isDigit then
        match digAux (c :: rest) 0 false with
        | (n, true, r) => some (.num (n : Int), r)
        | (_, false, _) => none
      else none

/-- One or more comma-separated array elements, then `]`. -/
def parseElems : Nat → List Char → Option (List JsVal × List Char)
  | 0, _ => none
  | fuel + 1, cs =>
    match parseVal fuel cs with
    | none => none
    | some (v, r) =>
      match skipWs r with
      | ',' :: r2 =>
        match parseElems fuel r2 with
        | some (vs, r3) => some (v :: vs, r3)
        | none => none
      | ']' :: r2 => some ([v], r2)
      | _ => none

/-- One or more comma-separated `"key": value` members, then the
closing brace. -/
def parseFields : Nat → List Char → Option (List (String × JsVal) × List Char)
  | 0, _ => none
  | fuel + 1, cs =>
    match skipWs cs with
    | '\x22' :: r =>
      match strAux r "" with
      | none => none
      | some (k, r1) =>
        match skipWs r1 with
        | ':' :: r2 =>
          match parseVal fuel r2 with
          | none => none
          | some (v, r3) =>
            match skipWs r3 with
            | ',' :: r4 =>
              match parseFields fuel r4 with
              | some (fs, r5) => some ((k, v) :: fs, r5)
              | none => none
            | '\x7d' :: r4 => some ([(k, v)], r4)
            | _ => none
        | _ => none
    | _ => none

end

/-- Executable model of the ECMAScript builtin `JSON.parse` on the
integer-numeral fragment: `none` models the `SyntaxError` throw on
malformed text. -/
def jsonParse (s : String) : Option JsVal :=
  match parseVal (2 * s.length + 2) s.data with
  | some (v, r) => if skipWs r = [] then some v else none
  | none => none

end Json

namespace Messages

/-- messages.js:55-58 applied to the wire text: `JSON.parse` (modelled
by `Json.jsonParse`; its `SyntaxError` throw on malformed text is the
`Except.error` case and the only failure point) followed by the
destructuring, which itself never fails. -/
def parseRequestText (s : String) : Except String JsVal :=
  match Json.jsonParse s with
  | none => .error "SyntaxError"
  | some v => .ok (parseRequest v)

/-- messages.js:80-85 applied to the wire text, like
`parseRequestText`. -/
def parseResponseText (s : String) : Except String JsVal :=
  match Json.jsonParse s with
  | none => .error "SyntaxError"
  | some v => .ok (parseResponse v)

end Messages

namespace Keys

/-- part_005 (keys module) `requestChannel(channelName, prefix)`:
`` `${prefix}n:${channelName}` `` — used to notify workers that there is
a new message in the request queue.  A missing prefix is the empty
string (`if (!prefix) prefix = ''`). -/
def requestChannel (channelName pfx : String) : String :=
  pfx ++ "n:" ++ channelName

/-- part_005 `responseChannel(requestId, prefix)`:
`` `${prefix}r:${requestId}` ``. -/
def responseChannel (requestId pfx : String) : String :=
  pfx ++ "r:" ++ requestId

/-- part_005 `requestQueue(queueName)`: `` `q:${queueName}` `` — note
that this builder takes **no** prefix parameter; list keys rely on the
redis client's `prefix` option instead. -/
def requestQueue (queueName : String) : String :=
  "q:" ++ queueName

/-- part_005 `pubSubChannel(channelName, prefix)`:
`` `${prefix}c:${channelName}` ``. -/
def pubSubChannel (channelName pfx : String) : String :=
  pfx ++ "c:" ++ channelName

end Keys

mutual

/-- ECMAScript ToString as used by template literals
(`` `${v}` ``): strings verbatim, numbers in decimal, `true`/`false`,
`null`/`undefined`, arrays joined by commas (`Array.prototype.toString`),
plain objects as `[object Object]`, errors as `name: message`
(`Error.prototype.toString`). -/
def jsTemplateStr : JsVal → String
  | .undefined => "undefined"
  | .null => "null"
  | .bool b => cond b "true" "false"
  | .num n => toString n
  | .str s => s
  | .arr xs => jsJoin xs
  | .obj _ => "[object Object]"
  | .err n m _ _ => n ++ ": " ++ m

/-- `Array.prototype.join(",")`: `null` and `undefined` elements become
empty strings. -/
def jsJoin : List JsVal → String
  | [] => ""
  | x :: xs =>
    (match x with
      | .null => ""
      | .undefined => ""
      | v => jsTemplateStr v)
    ++ (if xs.isEmpty then "" else ",") ++ jsJoin xs

end

/-- logging.js `module.exports.levels`: the level names handed to the
logger; the worker reads them as `this.levels` (`defaults.apply` with no
overrides yields exactly these). -/
structure Levels where
  error : String
  warning : String
  notice : String
  info : String
  debug : String

/-- logging.js:9-15 — the default level values are the identity
strings. -/
def defaultLevels : Levels :=
  { error := "error", warning := "warning", notice := "notice",
    info := "info", debug := "debug" }

/-- A log line as far as the embedding records it: the level value and
the scope tag passed to `_log` (the interpolated message text is not
modelled). -/
abbrev LogEntry := String × String

namespace Worker

/-- The worker's dispatch state (lib/worker.js, `handy-redis` revision)
together with the slice of the environment it interacts with:

* `isListening` / `isWorking` — the two instance flags;
* `queue` — the contents of the redis list `requestQueue`
  (head = `LPOP` side), holding parsed wire values;
* `published` — the `(channel, message)` pairs published so far, in
  order, on the worker's command connection;
* `handled` — the `data` values the user handler was invoked on, in
  order;
* `logs` — `(level, scope)` of each `_log` call.

The model is the worker's sequential execution between suspension
points with a happy-path backend: redis commands succeed and each
published response finds a subscribed client (`received ≥ 1`), so no
backend-error branches are taken. -/
structure State where
  isListening : Bool
  isWorking : Bool
  queue : List JsVal
  published : List (String × JsVal)
  handled : List JsVal
  logs : List LogEntry

/-- A freshly constructed worker (worker.js:26-42): the constructor
only builds key names; `isListening` and `isWorking` are still
`undefined` (falsy). -/
def initial (queue : List JsVal) : State :=
  { isListening := false, isWorking := false, queue := queue,
    published := [], handled := [], logs := [] }

/-- worker.js:195-208 — `_handleMessage(id, data)`: run the handler;
a fulfilled handler yields `composeResponse(id, response)`.  A rejected
handler stores the error in `responseError` (initialized to `null`) and
the choice is `responseError ? composeError(...) : composeResponse(...)`
— a *truthiness* test, so a falsy rejection value falls through to
`composeResponse(id, response)` with `response` still `undefined`. -/
def handleMessage (handle : JsVal → Except JsVal JsVal) (id data : JsVal) : JsVal :=
  match handle data with
  | .ok response => Messages.composeResponse id response
  | .error e =>
    if e.truthy then Messages.composeError id e
    else Messages.composeResponse id .undefined

/-- worker.js:142-188 — `_onMessage()`, the notification callback, in
its sequential execution (no concurrent `stop`, so `isListening` does
not change under our feet):

* not listening or already working → log and return (worker.js:146-147,
  before the `try` block);
* otherwise set `isWorking`, `LPOP` the request queue;
* empty pop → log `No queued message found. Idling.` and return through
  the `finally` block, which clears `isWorking` and runs `_checkQueue`
  (worker.js:216-229: log, `LLEN` = 0, return);
* a popped message is parsed, handled (`_handleMessage`), and the
  response published on `keys.responseChannel(id)`; the `finally` block
  then clears `isWorking` and `_checkQueue` finds the remaining queue
  length, re-entering `_onMessage` while requests remain (that re-entry
  is inlined here as the recursive call). -/
def onMessage (handle : JsVal → Except JsVal JsVal) (s : State) : State :=
  -- _log debug 'message' 'Got new request'
  if ¬s.isListening ∨ s.isWorking then
    -- _log debug 'message' 'Will not handle request. ...'; return
    { s with logs := s.logs ++
        [(defaultLevels.debug, "message"), (defaultLevels.debug, "message")] }
  else
    match _hq : s.queue with
    | [] =>
      -- lpop → nil; 'No queued message found. Idling.'; finally:
      -- isWorking = false, _checkQueue logs and sees an empty queue
      { s with isWorking := false, logs := s.logs ++
          [(defaultLevels.debug, "message"), (defaultLevels.debug, "message"),
           (defaultLevels.debug, "check_queue")] }
    | m :: rest =>
      -- isWorking = true; parseRequest; _handleMessage; publish;
      -- 'Finished handling message.'; finally: isWorking = false,
      -- _checkQueue ('check_queue' log, LLEN)
      let id := m.getField "id"
      let s' : State :=
        { isListening := s.isListening, isWorking := false, queue := rest,
          published := s.published ++
            [(Keys.responseChannel (jsTemplateStr id) "",
              handleMessage handle id (m.getField "data"))],
          handled := s.handled ++ [m.getField "data"],
          logs := s.logs ++
            [(defaultLevels.debug, "message"), (defaultLevels.debug, "message"),
             (defaultLevels.debug, "check_queue")] }
      if rest.isEmpty then s' else onMessage handle s'
termination_by s.queue.length
decreasing_by simp_all

end Worker

/-- The settlement of one public-API promise in the model: fulfilled,
rejected with a JS error value, or still pending (deferred until some
later event resolves it). -/
inductive Outcome : Type where
  | resolved : Outcome
  | pending : Outcome
  | rejected : JsVal → Outcome

/-- `new Error(message)`: an `Error` instance whose `name` is `"Error"`.
The runtime `stack` text is opaque and modelled as the empty string. -/
def jsError (message : String) : JsVal :=
  .err "Error" message "" []

namespace Worker

/-- worker.js:83-108 — `stop()`: if not listening, resolve at once and
change nothing.  Otherwise clear `isListening`, unsubscribe from the
request channel (happy path), and either wait for the current task
(`isWorking` → the promise stays pending until `_onMessage` finishes)
or `_shutdown` immediately (quit both clients, resolve). -/
def stop (s : State) : State × Outcome :=
  if ¬s.isListening then (s, .resolved)
  else if s.isWorking then
    -- 'Stop initiated.' (debug), 'Waiting for current task to finish.' (info)
    ({ s with isListening := false, logs := s.logs ++
        [(defaultLevels.debug, "stop"), (defaultLevels.info, "stop")] },
     .pending)
  else
    -- 'Stop initiated.' (debug), then _shutdown: 'Shutting down now.',
    -- 'Shutdown complete.' (info)
    ({ s with isListening := false, logs := s.logs ++
        [(defaultLevels.debug, "stop"), (defaultLevels.info, "shutdown"),
         (defaultLevels.info, "shutdown")] },
     .resolved)

end Worker

namespace Subscriber

/-- The subscriber's state (lib/subscriber.js): the `isListening` flag;
the single redis connection exists while listening. -/
structure State where
  isListening : Bool

/-- subscriber.js:84-109 — `stop()`: `if (!this.isListening) return
resolve()` — stopping a subscriber that is not listening (never started
or already stopped) resolves without touching anything.  Otherwise
clear the flag, unsubscribe and quit (happy path), resolve. -/
def stop (s : State) : State × Outcome :=
  if ¬s.isListening then (s, .resolved)
  else ({ isListening := false }, .resolved)

end Subscriber

namespace Publisher

/-- The publisher's state (lib/publisher.js): whether `this.publisher`
(the redis client) exists, and the `minimumRecipients` option read at
construction (default 0). -/
structure State where
  connected : Bool
  minimumRecipients : Nat

/-- publisher.js:48-65 — `connect()`: reject with
`Error('Publisher already connected.')` when a client already exists,
otherwise create it and resolve. -/
def connect (p : State) : State × Outcome :=
  if p.connected then (p, .rejected (jsError "Publisher already connected."))
  else ({ p with connected := true }, .resolved)

/-- publisher.js:70-89 — `disconnect()`: `if (!this.publisher) return
resolve()` — disconnecting a publisher that was never connected (or is
already disconnected) resolves quietly.  Otherwise quit the client
(happy path), set `this.publisher = undefined`, resolve. -/
def disconnect (p : State) : State × Outcome :=
  if ¬p.connected then (p, .resolved)
  else ({ p with connected := false }, .resolved)

/-- The settlement of one `publish` call: fulfilled with the recipient
count, or rejected with a JS error value. -/
inductive PubResult : Type where
  | resolvedWith : Nat → PubResult
  | rejectedWith : JsVal → PubResult

/-- publisher.js:105-136 — `publish(message)`: reject when not
connected; otherwise compose the framed pub/sub wire value (the first
component records it; `none` when nothing was composed) and `PUBLISH`
it.  `received` is the recipient count the backend returns to the
callback: below `minimumRecipients` the promise is rejected with
`Error('Could not reach enough subscribers')`, otherwise it resolves
with exactly `received` (publisher.js:128).  `msgId` stands for the
fresh `uniqid()`. -/
def publish (p : State) (msgId message : JsVal) (received : Nat) :
    Option JsVal × PubResult :=
  if ¬p.connected then (none, .rejectedWith (jsError "publisher not connected"))
  else
    let m := Messages.composePubSubMessage msgId message
    if received < p.minimumRecipients then
      (some m, .rejectedWith (jsError "Could not reach enough subscribers"))
    else (some m, .resolvedWith received)

end Publisher

namespace Client

/-- The client's state (lib/client.js): `this.publisher` existence,
the `shuttingDown` flag, the ids in the running-requests tracker, and
the redis request-queue list the client pushes to. -/
structure State where
  connected : Bool
  shuttingDown : Bool
  running : List String
  queued : List JsVal

/-- client.js:107 and client.js:112 — `return reject(new Error(...))`
inside the `async request(data)` body.  No identifier `reject` is in
scope there (`request` is a plain async method, not a promise
executor), so JavaScript throws on evaluating the callee: the promise
returned by `request` rejects with
`ReferenceError: reject is not defined` — not with the intended
`Error('Client not connected')` / `Error('Client currently shutting
down')`. -/
def rejectIsNotDefined : JsVal :=
  .err "ReferenceError" "reject is not defined" "" []

/-- What a `request(data)` call does before any network suspension. -/
inductive RequestOutcome : Type where
  | rejected : JsVal → RequestOutcome
  | started : String → RequestOutcome

/-- client.js:104-120 — the front of `request(data)`: the two guard
branches (see `rejectIsNotDefined`), which return before anything is
enqueued or registered; past the guards a fresh `requestId` is
registered in the running-requests tracker and `_getDataFromWorker`
pushes `composeRequest(requestId, data)` onto the request queue
(client.js:172). -/
def request (c : State) (data : JsVal) (requestId : String) :
    State × RequestOutcome :=
  if ¬c.connected then (c, .rejected rejectIsNotDefined)
  else if c.shuttingDown then (c, .rejected rejectIsNotDefined)
  else
    ({ c with
        running := c.running ++ [requestId],
        queued := c.queued ++ [Messages.composeRequest (.str requestId) data] },
     .started requestId)

/-- client.js:161 together with client.js:132-135 — the client parses
the one message received on its per-request response channel
(`parseResponse`) and then:
`if (response.ok) return response.response; else throw response.error`.
`.ok` is the resolution of the `request` promise, `.error` the
re-raised value. -/
def receive (m : JsVal) : Except JsVal JsVal :=
  let r := Messages.parseResponse m
  if (r.getField "ok").truthy then .ok (r.getField "response")
  else .error (r.getField "error")

end Client

namespace Dispatch

/-!
The cross-worker claim race.  Several workers subscribed to one queue's
request-notification channel race at `LPOP` (worker.js:152) for each
queued request; `LPOP` is a single atomic backend command, so the popped
item leaves the shared list in the same step in which the winning worker
obtains it — the handler is then invoked on a worker-local copy.  The
system below interleaves any number of workers over the shared list.
Wire messages are the queued strings themselves (what `RPUSH`/`LPOP`
move); `handled` records, in order, each handler invocation as the pair
(worker index, request message).
-/

/-- One worker's dispatch flags, as seen by the race. -/
structure WNode where
  isListening : Bool
  isWorking : Bool

/-- The shared state: the redis request-queue list, the log of every
request the clients ever `RPUSH`ed (client.js:172), the workers, and
the log of handler invocations. -/
structure Sys where
  queue : List String
  pushed : List String
  workers : List WNode
  handled : List (Nat × String)

/-- A system of `ws` workers over a fresh queue: nothing queued, nothing
pushed, nothing handled yet. -/
def Sys.start (ws : List WNode) : Sys :=
  { queue := [], pushed := [], workers := ws, handled := [] }

/-- One interleaved step of the system:

* `push` — a client `RPUSH`es a request (client.js:172) and notifies;
* `ignore` — a notified worker that is not listening or already working
  returns without touching anything (worker.js:146-147);
* `claimNone` — an idle worker's `LPOP` finds the queue empty: another
  worker won the race; nothing is handled (worker.js:155-158);
* `claimMsg` — an idle worker's `LPOP` atomically removes the head `m`;
  the worker turns busy and its handler is invoked on `m`
  (worker.js:150-162);
* `finish` — a busy worker completes its handler (and publishes its
  response) and returns to idle (worker.js:183-187). -/
inductive Step : Sys → Sys → Prop where
  | push (s : Sys) (m : String) :
      Step s { s with queue := s.queue ++ [m], pushed := s.pushed ++ [m] }
  | ignore (s : Sys) (i : Nat) (w : WNode) :
      s.workers[i]? = some w → (w.isListening = false ∨ w.isWorking = true) →
      Step s s
  | claimNone (s : Sys) (i : Nat) (w : WNode) :
      s.workers[i]? = some w → w.isListening = true → w.isWorking = false →
      s.queue = [] → Step s s
  | claimMsg (s : Sys) (i : Nat) (w : WNode) (m : String) (rest : List String) :
      s.workers[i]? = some w → w.isListening = true → w.isWorking = false →
      s.queue = m :: rest →
      Step s { s with
                queue := rest,
                workers := s.workers.set i { w with isWorking := true },
                handled := s.handled ++ [(i, m)] }
  | finish (s : Sys) (i : Nat) (w : WNode) :
      s.workers[i]? = some w → w.isWorking = true →
      Step s { s with workers := s.workers.set i { w with isWorking := false } }

/-- Finitely many interleaved steps from `init`. -/
inductive Reach (init : Sys) : Sys → Prop where
  | refl : Reach init init
  | tail : ∀ s t, Reach init s → Step s t → Reach init t

/-- Occurrences of the request `R` in a list of wire messages. -/
def wireCount (R : String) (l : List String) : Nat :=
  l.countP (fun x => x == R)

/-- Handler invocations on the request `R`, across all workers. -/
def invCount (R : String) (l : List (Nat × String)) : Nat :=
  l.countP (fun p => p.2 == R)

end Dispatch

/-! ## Theorems -/

/-- **C2** — Codec round-trip: for serializable `x` and any
serializable `id`, parsing a composed request recovers `{id, data: x}`;
parsing a composed response recovers `{id, response: x, ok: true}`;
parsing a composed pub/sub message recovers `{id, message: x}`.
(`JSON.stringify`/`JSON.parse` are the ECMAScript builtins, modelled as
the identity embedding of JSON values, which is their contract on
serializable data.) -/
theorem codec_round_trip (id x : JsVal)
    (hid : IsJson id = true) (hx : IsJson x = true) :
    Messages.parseRequest (Messages.composeRequest id x) =
      .obj [("id", id), ("data", x)] ∧
    Messages.parseResponse (Messages.composeResponse id x) =
      .obj [("id", id), ("response", x), ("ok", .bool true)] ∧
    Messages.parsePubSubMessage (Messages.composePubSubMessage id x) =
      .obj [("id", id), ("message", x)] := by
  refine ⟨?_, ?_, ?_⟩ <;>
    simp [Messages.parseRequest, Messages.composeRequest,
      Messages.parseResponse, Messages.composeResponse,
      Messages.parsePubSubMessage, Messages.composePubSubMessage,
      JsVal.getField, JsVal.truthy, List.lookup]

/-- **C2** witness: the round-trip at `id = "r1"`, `x = 7`. -/
theorem codec_round_trip_witness :
    (IsJson (JsVal.str "r1") = true ∧ IsJson (JsVal.num 7) = true) ∧
    (Messages.parseRequest (Messages.composeRequest (.str "r1") (.num 7)) =
      .obj [("id", .str "r1"), ("data", .num 7)] ∧
    Messages.parseResponse (Messages.composeResponse (.str "r1") (.num 7)) =
      .obj [("id", .str "r1"), ("response", .num 7), ("ok", .bool true)] ∧
    Messages.parsePubSubMessage (Messages.composePubSubMessage (.str "r1") (.num 7)) =
      .obj [("id", .str "r1"), ("message", .num 7)]) := by
  have h1 : IsJson (JsVal.str "r1") = true := by simp [JsVal.IsJson]
  have h2 : IsJson (JsVal.num 7) = true := by simp [JsVal.IsJson]
  exact ⟨⟨h1, h2⟩, codec_round_trip (.str "r1") (.num 7) h1 h2⟩

/-- **C10** — `parseResponse` classifies by the *truthiness* of the
parsed `ok` field, not by its presence: an absent `ok` destructures to
`undefined`, and any non-truthy `ok` yields the failure shape
`{id, error, ok: false}` (the `response` field is dropped); only a
truthy `ok` yields `{id, response, ok: true}` (the `error` field is
dropped). -/
theorem parse_response_truthiness (fs : List (String × JsVal)) :
    ((JsVal.obj fs).getField "ok" = .undefined →
      Messages.parseResponse (.obj fs) =
        .obj [("id", (JsVal.obj fs).getField "id"),
              ("error", (JsVal.obj fs).getField "error"), ("ok", .bool false)]) ∧
    (((JsVal.obj fs).getField "ok").truthy = false →
      Messages.parseResponse (.obj fs) =
        .obj [("id", (JsVal.obj fs).getField "id"),
              ("error", (JsVal.obj fs).getField "error"), ("ok", .bool false)]) ∧
    (((JsVal.obj fs).getField "ok").truthy = true →
      Messages.parseResponse (.obj fs) =
        .obj [("id", (JsVal.obj fs).getField "id"),
              ("response", (JsVal.obj fs).getField "response"), ("ok", .bool true)]) := by
  refine ⟨?_, ?_, ?_⟩
  · intro h; simp [Messages.parseResponse, h, JsVal.truthy]
  · intro h; simp [Messages.parseResponse, h]
  · intro h; simp [Messages.parseResponse, h]

/-- **C10** witness: a response with `ok` absent, one with the
non-truthy `ok: 0` (its `response` field dropped), and one with
`ok: true` (its `error` field dropped). -/
theorem parse_response_truthiness_witness :
    ((JsVal.obj [("id", .str "a"), ("error", .str "boom")]).getField "ok" = .undefined ∧
      Messages.parseResponse (.obj [("id", .str "a"), ("error", .str "boom")]) =
        .obj [("id", .str "a"), ("error", .str "boom"), ("ok", .bool false)]) ∧
    (((JsVal.obj [("id", .str "a"), ("ok", .num 0), ("response", .str "x"),
        ("error", .str "e")]).getField "ok").truthy = false ∧
      Messages.parseResponse (.obj [("id", .str "a"), ("ok", .num 0),
          ("response", .str "x"), ("error", .str "e")]) =
        .obj [("id", .str "a"), ("error", .str "e"), ("ok", .bool false)]) ∧
    (((JsVal.obj [("id", .str "a"), ("ok", .bool true), ("response", .str "x"),
        ("error", .str "e")]).getField "ok").truthy = true ∧
      Messages.parseResponse (.obj [("id", .str "a"), ("ok", .bool true),
          ("response", .str "x"), ("error", .str "e")]) =
        .obj [("id", .str "a"), ("response", .str "x"), ("ok", .bool true)]) := by
  have h0 : (JsVal.obj [("id", .str "a"), ("error", .str "boom")]).getField "ok" =
      .undefined := by simp [JsVal.getField, List.lookup]
  have h1 : ((JsVal.obj [("id", .str "a"), ("ok", .num 0), ("response", .str "x"),
      ("error", .str "e")]).getField "ok").truthy = false := by
    simp [JsVal.getField, List.lookup, JsVal.truthy]
  have h2 : ((JsVal.obj [("id", .str "a"), ("ok", .bool true), ("response", .str "x"),
      ("error", .str "e")]).getField "ok").truthy = true := by
    simp [JsVal.getField, List.lookup, JsVal.truthy]
  refine ⟨⟨h0, ?_⟩, ⟨h1, ?_⟩, ⟨h2, ?_⟩⟩
  · have := (parse_response_truthiness [("id", .str "a"), ("error", .str "boom")]).1 h0
    simpa [JsVal.getField, List.lookup] using this
  · have := (parse_response_truthiness [("id", .str "a"), ("ok", .num 0),
      ("response", .str "x"), ("error", .str "e")]).2.1 h1
    simpa [JsVal.getField, List.lookup] using this
  · have := (parse_response_truthiness [("id", .str "a"), ("ok", .bool true),
      ("response", .str "x"), ("error", .str "e")]).2.2 h2
    simpa [JsVal.getField, List.lookup] using this

/-- **C7** counterexample — the claim states that the generated
request-queue name carries the configured prefix (`p` followed by
`q:Q`, so `rrb:q:Q` under the default `rrb:` prefix); but the key
builder's `requestQueue` takes no prefix at all and returns the bare
`q:Q`. -/
theorem key_builder_queue_unprefixed :
    Keys.requestQueue "Q" = "q:Q" ∧ Keys.requestQueue "Q" ≠ "rrb:q:Q" := by
  refine ⟨rfl, ?_⟩
  decide

/-- **C7** amended — the channel builders prefix their names with the
configured prefix `p` (request-notification channel `p ++ n:Q`,
response channel `p ++ r:R`, pub/sub channel `p ++ c:C`), but the
request-queue builder takes no prefix and returns the bare `q:Q`: the
prefix for list keys is applied by the redis client's `prefix` option,
not by the key builder. -/
theorem key_builder_names (p Q R C : String) :
    Keys.requestChannel Q p = p ++ "n:" ++ Q ∧
    Keys.responseChannel R p = p ++ "r:" ++ R ∧
    Keys.pubSubChannel C p = p ++ "c:" ++ C ∧
    Keys.requestQueue Q = "q:" ++ Q :=
  ⟨rfl, rfl, rfl, rfl⟩

/-- **C8** counterexample — the claim states that a wire message
missing a required top-level field fails to parse with a decode error;
but `JSON.parse` accepts the well-formed text and the destructuring
silently yields `undefined` for the missing field: a request without
`id` and a response without `id` both parse successfully. -/
theorem missing_field_parses_without_error :
    Messages.parseRequestText "\x7b\"data\": 5\x7d" =
      .ok (.obj [("id", .undefined), ("data", .num 5)]) ∧
    Messages.parseResponseText "\x7b\"ok\": true\x7d" =
      .ok (.obj [("id", .undefined), ("response", .undefined), ("ok", .bool true)]) :=
  ⟨rfl, rfl⟩

/-- **C8** amended — an unknown extra top-level field is ignored on
parse (for both requests and responses), and parsing succeeds; a
*missing* required field is **not** a decode error: the parse succeeds
with the field destructured to `undefined`.  Only malformed (non-JSON)
wire text fails, with the `JSON.parse` `SyntaxError`. -/
theorem decode_tolerance (j : String) (y : JsVal) (fs : List (String × JsVal))
    (hid : j ≠ "id") (hdata : j ≠ "data") (hresp : j ≠ "response")
    (herr : j ≠ "error") (hok : j ≠ "ok") :
    Messages.parseRequest (.obj ((j, y) :: fs)) = Messages.parseRequest (.obj fs) ∧
    Messages.parseResponse (.obj ((j, y) :: fs)) = Messages.parseResponse (.obj fs) ∧
    (fs.lookup "id" = none →
      Messages.parseRequest (.obj fs) =
        .obj [("id", .undefined), ("data", (JsVal.obj fs).getField "data")]) ∧
    Messages.parseRequestText "\x7b" = .error "SyntaxError" := by
  have hGet : ∀ k : String, k ≠ j →
      (JsVal.obj ((j, y) :: fs)).getField k = (JsVal.obj fs).getField k := by
    intro k hk
    simp [JsVal.getField, List.lookup, beq_eq_false_iff_ne.mpr hk]
  refine ⟨?_, ?_, ?_, rfl⟩
  · simp [Messages.parseRequest, hGet "id" (Ne.symm hid), hGet "data" (Ne.symm hdata)]
  · simp [Messages.parseResponse, hGet "id" (Ne.symm hid), hGet "ok" (Ne.symm hok),
      hGet "error" (Ne.symm herr), hGet "response" (Ne.symm hresp)]
  · intro h
    simp [Messages.parseRequest, JsVal.getField, h]

/-- **C8** witness: the unknown field `meta` is ignored by both
parsers, a request without `id` parses with `id = undefined`, and the
malformed text `\x7b` fails. -/
theorem decode_tolerance_witness :
    ("meta" ≠ "id" ∧ "meta" ≠ "data" ∧ "meta" ≠ "response" ∧
      "meta" ≠ "error" ∧ "meta" ≠ "ok") ∧
    (Messages.parseRequest (.obj [("meta", .num 1), ("id", .str "a"), ("data", .num 2)]) =
      Messages.parseRequest (.obj [("id", .str "a"), ("data", .num 2)]) ∧
    Messages.parseResponse (.obj [("meta", .num 1), ("id", .str "a"), ("data", .num 2)]) =
      Messages.parseResponse (.obj [("id", .str "a"), ("data", .num 2)]) ∧
    ([("data", JsVal.num 2)].lookup "id" = none →
      Messages.parseRequest (.obj [("data", .num 2)]) =
        .obj [("id", .undefined),
              ("data", (JsVal.obj [("data", JsVal.num 2)]).getField "data")]) ∧
    Messages.parseRequestText "\x7b" = .error "SyntaxError") := by
  refine ⟨⟨by decide, by decide, by decide, by decide, by decide⟩, ?_⟩
  have h := decode_tolerance "meta" (.num 1) [("id", .str "a"), ("data", .num 2)]
    (by decide) (by decide) (by decide) (by decide) (by decide)
  have h2 := decode_tolerance "meta" (.num 1) [("data", .num 2)]
    (by decide) (by decide) (by decide) (by decide) (by decide)
  exact ⟨h.1, h.2.1, h2.2.2.1, h.2.2.2⟩

/-- **C4** — the claim says `request` on a client that is not connected
rejects with `NotConnectedError` (`'Client not connected'`) and on a
shutting-down client with `ShuttingDownError`
(`'Client currently shutting down'`).  The guards do reject immediately
and enqueue/register nothing, but client.js:107 and client.js:112 call
the *unbound identifier* `reject` inside the plain async method, so
both rejections actually carry
`ReferenceError: reject is not defined` — the slip contradicts the
repo's own unit test (`should fail when not connected`, which expects
`'Client not connected'`).  This theorem evaluates the embedded code at
the failing inputs: the state (running-requests tracker, request
queue) is untouched and the rejection is the ReferenceError. -/
theorem request_gate_reference_error :
    (Client.request
        { connected := false, shuttingDown := false,
          running := ["other"], queued := [.null] } (.num 10) "r1" =
      ({ connected := false, shuttingDown := false,
         running := ["other"], queued := [.null] },
       .rejected Client.rejectIsNotDefined)) ∧
    (Client.request
        { connected := true, shuttingDown := true,
          running := ["other"], queued := [.null] } (.num 10) "r1" =
      ({ connected := true, shuttingDown := true,
         running := ["other"], queued := [.null] },
       .rejected Client.rejectIsNotDefined)) ∧
    Client.rejectIsNotDefined =
      .err "ReferenceError" "reject is not defined" "" [] :=
  ⟨rfl, rfl, rfl⟩

/-- **C5** — Publisher recipient-count law: on a connected publisher,
`publish` composes the framed pub/sub message; with `n` the recipient
count returned by the backend `PUBLISH`, it rejects with the
insufficient-recipients error when `n < minimumRecipients` and
otherwise resolves with exactly `n`; with the default
`minimumRecipients = 0` it never rejects for too few recipients. -/
theorem publisher_recipient_count (p : Publisher.State) (msgId message : JsVal)
    (n : Nat) (hc : p.connected = true) :
    (Publisher.publish p msgId message n).1 =
      some (Messages.composePubSubMessage msgId message) ∧
    (n < p.minimumRecipients →
      (Publisher.publish p msgId message n).2 =
        .rejectedWith (jsError "Could not reach enough subscribers")) ∧
    (p.minimumRecipients ≤ n →
      (Publisher.publish p msgId message n).2 = .resolvedWith n) ∧
    (p.minimumRecipients = 0 →
      (Publisher.publish p msgId message n).2 = .resolvedWith n) := by
  refine ⟨?_, ?_, ?_, ?_⟩
  · by_cases h : n < p.minimumRecipients <;> simp [Publisher.publish, hc, h]
  · intro h; simp [Publisher.publish, hc, h]
  · intro h; simp [Publisher.publish, hc, Nat.not_lt.mpr h]
  · intro h; simp [Publisher.publish, hc, h]

/-- **C5** witness: a connected publisher with `minimumRecipients = 2`
rejects at count 1 and resolves with 3 at count 3; one with the default
0 resolves with 0 even when nobody listens. -/
theorem publisher_recipient_count_witness :
    ((Publisher.State.mk true 2).connected = true) ∧
    ((Publisher.publish ⟨true, 2⟩ (.str "m1") (.str "hello") 1).1 =
      some (Messages.composePubSubMessage (.str "m1") (.str "hello"))) ∧
    ((1 : Nat) < 2 →
      (Publisher.publish ⟨true, 2⟩ (.str "m1") (.str "hello") 1).2 =
        .rejectedWith (jsError "Could not reach enough subscribers")) ∧
    ((2 : Nat) ≤ 3 →
      (Publisher.publish ⟨true, 2⟩ (.str "m1") (.str "hello") 3).2 =
        .resolvedWith 3) ∧
    ((0 : Nat) = 0 →
      (Publisher.publish ⟨true, 0⟩ (.str "m1") (.str "hello") 0).2 =
        .resolvedWith 0) := by
  refine ⟨rfl, ?_, ?_, ?_, ?_⟩
  · exact (publisher_recipient_count ⟨true, 2⟩ (.str "m1") (.str "hello") 1 rfl).1
  · exact fun _ =>
      (publisher_recipient_count ⟨true, 2⟩ (.str "m1") (.str "hello") 1 rfl).2.1
        (by decide)
  · exact fun _ =>
      (publisher_recipient_count ⟨true, 2⟩ (.str "m1") (.str "hello") 3 rfl).2.2.1
        (by decide)
  · exact fun _ =>
      (publisher_recipient_count ⟨true, 0⟩ (.str "m1") (.str "hello") 0 rfl).2.2.2 rfl

/-- **C6** — Idempotent stop/disconnect: a second `Worker.stop`,
`Subscriber.stop` or `Publisher.disconnect` always resolves (never
raises), whatever the first call did; and calling the operation before
the corresponding `listen`/`connect` (the flag still unset) resolves
without error and without touching anything — in particular
`publisher.disconnect()` on a never-connected publisher resolves
quietly. -/
theorem idempotent_stop_disconnect :
    (∀ s : Worker.State, (Worker.stop (Worker.stop s).1).2 = Outcome.resolved) ∧
    (∀ s : Worker.State,
      Worker.stop { s with isListening := false } =
        ({ s with isListening := false }, Outcome.resolved)) ∧
    (∀ s : Subscriber.State, (Subscriber.stop (Subscriber.stop s).1).2 = Outcome.resolved) ∧
    (Subscriber.stop { isListening := false } =
      ({ isListening := false }, Outcome.resolved)) ∧
    (∀ p : Publisher.State, (Publisher.disconnect (Publisher.disconnect p).1).2 = Outcome.resolved) ∧
    (∀ p : Publisher.State,
      Publisher.disconnect { p with connected := false } =
        ({ p with connected := false }, Outcome.resolved)) := by
  refine ⟨?_, ?_, ?_, ?_, ?_, ?_⟩
  · intro s
    by_cases h1 : s.isListening <;> by_cases h2 : s.isWorking <;>
      simp [Worker.stop, h1, h2]
  · intro s; simp [Worker.stop]
  · intro s
    by_cases h : s.isListening <;> simp [Subscriber.stop, h]
  · simp [Subscriber.stop]
  · intro p
    by_cases h : p.connected <;> simp [Publisher.disconnect, h]
  · intro p; simp [Publisher.disconnect]

/-- **C1** counterexample — the handler `async d => { throw 0; }`
rejects with the falsy value `0`.  `_handleMessage`'s sentinel test
`responseError ? composeError(...) : composeResponse(...)`
(worker.js:205-207) tests truthiness, so the rejection falls through to
the success branch: the worker publishes an `ok: true` response
carrying `undefined`, and the client *resolves* with `undefined`
instead of re-raising the error — contradicting the claim for this
handler error. -/
theorem error_propagation_falsy_counterexample :
    (Worker.handleMessage (fun _ => .error (.num 0)) (.str "r1") (.num 5)).getField "ok" =
      .bool true ∧
    Client.receive (Worker.handleMessage (fun _ => .error (.num 0)) (.str "r1") (.num 5)) =
      .ok .undefined :=
  ⟨rfl, rfl⟩

/-- **C1** amended — transparent user-error propagation holds for any
fulfilled handler and for any handler rejection with a *truthy* value
(every genuine `Error` instance is truthy): on fulfillment with `r` the
worker composes and publishes `composeResponse(id, r)` and the client
resolves with `r`; on rejection with truthy `e` the worker composes and
publishes the `{ok: false}` response `composeError(id, e)` carrying `e`
normalized by `serializeError` (message, name, stack and the enumerable
fields, for `Error` instances; verbatim otherwise), and the client
re-raises that carried error.  A falsy rejection value instead takes
the success branch (see the counterexample). -/
theorem error_propagation (handle : JsVal → Except JsVal JsVal) (id data : JsVal) :
    (∀ r, handle data = .ok r →
      Worker.handleMessage handle id data = Messages.composeResponse id r ∧
      Client.receive (Worker.handleMessage handle id data) = .ok r) ∧
    (∀ e, handle data = .error e → e.truthy = true →
      Worker.handleMessage handle id data = Messages.composeError id e ∧
      Client.receive (Worker.handleMessage handle id data) =
        .error (Messages.serializeError e)) ∧
    (∀ s : Worker.State, s.isListening = true → s.isWorking = false →
      s.queue = [Messages.composeRequest id data] →
      (Worker.onMessage handle s).published =
        s.published ++ [(Keys.responseChannel (jsTemplateStr id) "",
          Worker.handleMessage handle id data)] ∧
      (Worker.onMessage handle s).handled = s.handled ++ [data]) := by
  refine ⟨?_, ?_, ?_⟩
  · intro r hr
    constructor
    · simp [Worker.handleMessage, hr]
    · simp [Worker.handleMessage, hr, Client.receive, Messages.parseResponse,
        Messages.composeResponse, JsVal.getField, List.lookup, JsVal.truthy]
  · intro e he ht
    have hHM : Worker.handleMessage handle id data = Messages.composeError id e := by
      simp [Worker.handleMessage, he, ht]
    have hnorm : Messages.composeError id e =
        .obj [("id", id), ("error", Messages.serializeError e), ("ok", .bool false)] := by
      cases e <;> simp [Messages.composeError, Messages.serializeError]
    refine ⟨hHM, ?_⟩
    rw [hHM, hnorm]
    simp [Client.receive, Messages.parseResponse, JsVal.getField, List.lookup,
      JsVal.truthy]
  · intro s h1 h2 h3
    have hid : (Messages.composeRequest id data).getField "id" = id := by
      simp [Messages.composeRequest, JsVal.getField, List.lookup]
    have hdata : (Messages.composeRequest id data).getField "data" = data := by
      simp [Messages.composeRequest, JsVal.getField, List.lookup]
    obtain ⟨l, w, q, pub, hnd, lg⟩ := s
    replace h1 : l = true := h1
    replace h2 : w = false := h2
    replace h3 : q = [Messages.composeRequest id data] := h3
    subst h1; subst h2; subst h3
    rw [Worker.onMessage]
    simp [hid, hdata]

/-- **C1** witness: the identity handler resolving with `3`, a handler
rejecting with the truthy error `Error('boom', extra)` whose normalized
form is re-raised, and the publish effect of processing one queued
request. -/
theorem error_propagation_witness :
    ((fun _ : JsVal => (Except.ok (JsVal.num 3) : Except JsVal JsVal)) (.num 5) =
        .ok (.num 3) ∧
      Worker.handleMessage (fun _ => .ok (.num 3)) (.str "r1") (.num 5) =
        Messages.composeResponse (.str "r1") (.num 3) ∧
      Client.receive (Worker.handleMessage (fun _ => .ok (.num 3)) (.str "r1") (.num 5)) =
        .ok (.num 3)) ∧
    ((fun _ : JsVal =>
        (Except.error (JsVal.err "Error" "boom" "st" [("code", .num 7)]) :
          Except JsVal JsVal)) (.num 5) =
        .error (.err "Error" "boom" "st" [("code", .num 7)]) ∧
      (JsVal.err "Error" "boom" "st" [("code", .num 7)]).truthy = true ∧
      Worker.handleMessage
          (fun _ => .error (.err "Error" "boom" "st" [("code", .num 7)]))
          (.str "r1") (.num 5) =
        Messages.composeError (.str "r1") (.err "Error" "boom" "st" [("code", .num 7)]) ∧
      Client.receive (Worker.handleMessage
          (fun _ => .error (.err "Error" "boom" "st" [("code", .num 7)]))
          (.str "r1") (.num 5)) =
        .error (Messages.serializeError (.err "Error" "boom" "st" [("code", .num 7)]))) := by
  have hw := error_propagation (fun _ => .ok (.num 3)) (.str "r1") (.num 5)
  have he := error_propagation
    (fun _ => .error (.err "Error" "boom" "st" [("code", .num 7)])) (.str "r1") (.num 5)
  have h1 := hw.1 (.num 3) rfl
  have h2 := he.2.1 (.err "Error" "boom" "st" [("code", .num 7)]) rfl rfl
  exact ⟨⟨rfl, h1.1, h1.2⟩, ⟨rfl, rfl, h2.1, h2.2⟩⟩

/-- **C3** — Worker dispatch: a notification arriving while the worker
is working (`isWorking`) or not listening is ignored — the handler is
not invoked and the dispatch state (flags, queue, published responses,
handled requests) is unchanged (only two debug log lines are written);
and when an idle worker's `LPOP` claim finds the queue empty it logs at
the debug level and remains idle (`isWorking` is false afterwards)
without invoking the handler. -/
theorem worker_dispatch_ignore_and_empty
    (handle : JsVal → Except JsVal JsVal) (s : Worker.State) :
    (s.isWorking = true ∨ s.isListening = false →
      (Worker.onMessage handle s).isListening = s.isListening ∧
      (Worker.onMessage handle s).isWorking = s.isWorking ∧
      (Worker.onMessage handle s).queue = s.queue ∧
      (Worker.onMessage handle s).published = s.published ∧
      (Worker.onMessage handle s).handled = s.handled) ∧
    (s.isListening = true → s.isWorking = false → s.queue = [] →
      Worker.onMessage handle s =
        { s with isWorking := false, logs := s.logs ++
            [(defaultLevels.debug, "message"), (defaultLevels.debug, "message"),
             (defaultLevels.debug, "check_queue")] }) ∧
    defaultLevels.debug = "debug" := by
  refine ⟨?_, ?_, rfl⟩
  · intro h
    rcases h with h | h <;> rw [Worker.onMessage] <;> simp [h]
  · intro h1 h2 h3
    obtain ⟨l, w, q, pub, hnd, lg⟩ := s
    replace h1 : l = true := h1
    replace h2 : w = false := h2
    replace h3 : q = [] := h3
    subst h1; subst h2; subst h3
    rw [Worker.onMessage]
    simp

/-- **C3** witness: a busy worker ignores the notification (state
projections unchanged) and an idle worker with an empty queue stays
idle, logging at debug. -/
theorem worker_dispatch_ignore_and_empty_witness :
    ((Worker.onMessage (fun _ => .ok .null)
        ⟨true, true, [.null], [], [], []⟩).isListening = true ∧
      (Worker.onMessage (fun _ => .ok .null)
        ⟨true, true, [.null], [], [], []⟩).isWorking = true ∧
      (Worker.onMessage (fun _ => .ok .null)
        ⟨true, true, [.null], [], [], []⟩).queue = [.null] ∧
      (Worker.onMessage (fun _ => .ok .null)
        ⟨true, true, [.null], [], [], []⟩).published = [] ∧
      (Worker.onMessage (fun _ => .ok .null)
        ⟨true, true, [.null], [], [], []⟩).handled = []) ∧
    (Worker.onMessage (fun _ => .ok .null) ⟨true, false, [], [], [], []⟩ =
      { isListening := true, isWorking := false, queue := [], published := [],
        handled := [], logs :=
          [(defaultLevels.debug, "message"), (defaultLevels.debug, "message"),
           (defaultLevels.debug, "check_queue")] }) := by
  have hbusy := (worker_dispatch_ignore_and_empty (fun _ => .ok .null)
    ⟨true, true, [.null], [], [], []⟩).1 (Or.inl rfl)
  have hidle := (worker_dispatch_ignore_and_empty (fun _ => .ok .null)
    ⟨true, false, [], [], [], []⟩).2.1 rfl rfl rfl
  exact ⟨hbusy, hidle⟩

namespace Dispatch

/-- A list containing two distinct elements that both satisfy `p`
counts `p` at least twice. -/
theorem countP_two_of_mem {α : Type} (p : α → Bool) {a b : α} {l : List α}
    (ha : a ∈ l) (hb : b ∈ l) (hne : a ≠ b)
    (hpa : p a = true) (hpb : p b = true) : 2 ≤ l.countP p := by
  induction l with
  | nil => cases ha
  | cons x xs ih =>
    rw [List.countP_cons]
    by_cases hax : a = x
    · subst hax
      have hbxs : b ∈ xs := by
        rcases List.mem_cons.mp hb with h | h
        · exact absurd h.symm hne
        · exact h
      have hpos : 0 < xs.countP p := List.countP_pos_iff.mpr ⟨b, hbxs, hpb⟩
      rw [if_pos hpa]
      omega
    · by_cases hbx : b = x
      · subst hbx
        have haxs : a ∈ xs := (List.mem_cons.mp ha).resolve_left hax
        have hpos : 0 < xs.countP p := List.countP_pos_iff.mpr ⟨a, haxs, hpa⟩
        rw [if_pos hpb]
        omega
      · have haxs : a ∈ xs := (List.mem_cons.mp ha).resolve_left hax
        have hbxs : b ∈ xs := (List.mem_cons.mp hb).resolve_left hbx
        have := ih haxs hbxs
        omega

/-- One interleaved step preserves the request-conservation sum: for
every request `R`, (copies of `R` still queued) + (handler invocations
on `R`) equals (copies of `R` ever pushed).  The only step that moves
`R` is the atomic `LPOP` claim, which removes one queued copy and adds
one invocation. -/
theorem step_conservation (R : String) {s t : Sys} (h : Step s t)
    (hinv : wireCount R s.queue + invCount R s.handled = wireCount R s.pushed) :
    wireCount R t.queue + invCount R t.handled = wireCount R t.pushed := by
  cases h with
  | push m =>
    simp only [wireCount, invCount, List.countP_append, List.countP_cons,
      List.countP_nil] at hinv ⊢
    omega
  | ignore i w hw hflags => exact hinv
  | claimNone i w hw hl hwk hq => exact hinv
  | claimMsg i w m rest hw hl hwk hq =>
    rw [hq] at hinv
    simp only [wireCount, invCount, List.countP_append, List.countP_cons,
      List.countP_nil] at hinv ⊢
    omega
  | finish i w hw hwk => exact hinv

/-- Request conservation along every reachable state of a fresh
system. -/
theorem reach_conservation (ws : List WNode) (R : String) {s : Sys}
    (h : Reach (Sys.start ws) s) :
    wireCount R s.queue + invCount R s.handled = wireCount R s.pushed := by
  induction h with
  | refl => simp [Sys.start, wireCount, invCount]
  | tail u t hr hs ih => exact step_conservation R hs ih

end Dispatch

/-- **C9** — Exactly-once delivery per request: in every interleaving
of any number of workers racing at the atomic `LPOP`, if the request
`R` was accepted by (pushed onto) the queue exactly once, then across
all workers at most one handler invocation on `R` ever happens; once
`R` is no longer queued (it has been claimed), exactly one invocation
has happened; and any two invocations on `R` belong to the same worker
— no worker other than the winner of the `LPOP` race ever invokes its
handler on `R`, and the winner invokes it exactly once. -/
theorem exactly_once_dispatch (ws : List Dispatch.WNode) (R : String)
    (s : Dispatch.Sys) (hreach : Dispatch.Reach (Dispatch.Sys.start ws) s)
    (honce : Dispatch.wireCount R s.pushed = 1) :
    Dispatch.invCount R s.handled ≤ 1 ∧
    (Dispatch.wireCount R s.queue = 0 → Dispatch.invCount R s.handled = 1) ∧
    (∀ i j : Nat, (i, R) ∈ s.handled → (j, R) ∈ s.handled → i = j) := by
  have hc := Dispatch.reach_conservation ws R hreach
  rw [honce] at hc
  refine ⟨by omega, fun h => by rw [h] at hc; omega, ?_⟩
  intro i j hi hj
  by_contra hne
  have hpair : ((i, R) : Nat × String) ≠ (j, R) := by
    intro hcontra
    exact hne (congrArg Prod.fst hcontra)
  have h2 : 2 ≤ s.handled.countP (fun p => p.2 == R) :=
    Dispatch.countP_two_of_mem _ hi hj hpair (by simp) (by simp)
  have hle : Dispatch.invCount R s.handled ≤ 1 := by omega
  rw [Dispatch.invCount] at hle
  omega

/-- **C9** witness: two idle workers, one request `"r"` pushed once;
worker 0 wins the `LPOP` race.  In the resulting state the request was
handled exactly once, by worker 0 alone. -/
theorem exactly_once_dispatch_witness :
    Dispatch.wireCount "r"
      (Dispatch.Sys.mk [] ["r"] [⟨true, true⟩, ⟨true, false⟩] [(0, "r")]).pushed = 1 ∧
    (Dispatch.invCount "r"
        (Dispatch.Sys.mk [] ["r"] [⟨true, true⟩, ⟨true, false⟩] [(0, "r")]).handled ≤ 1 ∧
      (Dispatch.wireCount "r"
          (Dispatch.Sys.mk [] ["r"] [⟨true, true⟩, ⟨true, false⟩] [(0, "r")]).queue = 0 →
        Dispatch.invCount "r"
          (Dispatch.Sys.mk [] ["r"] [⟨true, true⟩, ⟨true, false⟩] [(0, "r")]).handled = 1) ∧
      (∀ i j : Nat,
        (i, "r") ∈ (Dispatch.Sys.mk [] ["r"] [⟨true, true⟩, ⟨true, false⟩] [(0, "r")]).handled →
        (j, "r") ∈ (Dispatch.Sys.mk [] ["r"] [⟨true, true⟩, ⟨true, false⟩] [(0, "r")]).handled →
        i = j)) := by
  have hreach : Dispatch.Reach
      (Dispatch.Sys.start [⟨true, false⟩, ⟨true, false⟩])
      (Dispatch.Sys.mk [] ["r"] [⟨true, true⟩, ⟨true, false⟩] [(0, "r")]) := by
    have h1 : Dispatch.Reach (Dispatch.Sys.start [⟨true, false⟩, ⟨true, false⟩])
        (Dispatch.Sys.mk ["r"] ["r"] [⟨true, false⟩, ⟨true, false⟩] []) :=
      Dispatch.Reach.tail _ _ Dispatch.Reach.refl
        (Dispatch.Step.push (Dispatch.Sys.start [⟨true, false⟩, ⟨true, false⟩]) "r")
    exact Dispatch.Reach.tail _ _ h1
      (Dispatch.Step.claimMsg
        (Dispatch.Sys.mk ["r"] ["r"] [⟨true, false⟩, ⟨true, false⟩] [])
        0 ⟨true, false⟩ "r" [] rfl rfl rfl rfl)
  have honce : Dispatch.wireCount "r"
      (Dispatch.Sys.mk [] ["r"] [⟨true, true⟩, ⟨true, false⟩] [(0, "r")]).pushed = 1 := by
    simp [Dispatch.wireCount]
  exact ⟨honce,
    exactly_once_dispatch [⟨true, false⟩, ⟨true, false⟩] "r" _ hreach honce⟩
